import Mathlib

/-
Verification of the real-time audio streaming client
(component WebSocketAudioClient in src/src/components/StatusIndicator.tsx).

The development is a shallow embedding of the component:
- the pure audio math (resampleAudio, the PCM16 quantization inside
  convertAudioForTeler) is modelled over rational numbers, with
  JavaScript Math.round modelled as jsRound;
- the component's React state and refs are collected in one AppState
  record; each handler (connect, the onopen/onmessage callbacks,
  startRecording, stopRecording, processRecordedAudio, the playback
  functions, disconnect) becomes an explicit state transformer,
  translated statement by statement from the source. useState consts
  read inside a closure are render-scoped, so the handlers that read
  them take the captured render snapshot (RenderProps) as a separate
  argument from the live state; refs and functional set-state updates
  act on the live state;
- browser effects that the component only consumes are parameters:
  microphone permission is a Boolean oracle of connect,
  decodeAudioData-based conversion is an oracle of type
  List Nat -> Option String (null on conversion failure), timestamps
  (Date.now) are explicit arguments, and a fault oracle marks which
  release call of disconnect throws.
-/

namespace WSAudio

/-- JavaScript Math.round: rounds to the nearest integer, halves toward
positive infinity. -/
def jsRound (x : ℚ) : ℤ := ⌊x + 1/2⌋

/-- resampleAudio from the source: identity when the rates are equal,
otherwise linear interpolation at fractional index i * ratio with
ratio = inputSampleRate / outputSampleRate, the upper neighbour index
clamped to the last valid input index, and
round(inputLength / ratio) output samples. -/
def resampleAudio (inputData : List ℚ) (inputSampleRate outputSampleRate : ℕ) : List ℚ :=
  if inputSampleRate = outputSampleRate then inputData
  else
    let ratio : ℚ := (inputSampleRate : ℚ) / (outputSampleRate : ℚ)
    let outputLength : ℕ := (jsRound ((inputData.length : ℚ) / ratio)).toNat
    (List.range outputLength).map (fun (i : ℕ) =>
      let inputIndex : ℚ := (i : ℚ) * ratio
      let inputIndexFloor : ℕ := (⌊inputIndex⌋).toNat
      let inputIndexCeil : ℕ := min (inputIndexFloor + 1) (inputData.length - 1)
      let fraction : ℚ := inputIndex - (inputIndexFloor : ℚ)
      inputData.getD inputIndexFloor 0 * (1 - fraction)
        + inputData.getD inputIndexCeil 0 * fraction)

/-- The clamp of convertAudioForTeler:
sample = Math.max(-1, Math.min(1, resampledData[i])). -/
def clampSample (x : ℚ) : ℚ := max (-1) (min 1 x)

/-- The quantization of convertAudioForTeler:
pcmData[i] = Math.round(sample * 32767) after clamping. -/
def pcm16OfFloat (x : ℚ) : ℤ := jsRound (clampSample x * 32767)

/-- Decoding one PCM16 sample back to a float sample (the inverse scaling
by 32767 used by the wire format). -/
def floatOfPcm16 (v : ℤ) : ℚ := (v : ℚ) / 32767

/-- C2: the resampler is the identity for equal rates; for distinct
positive rates it returns round(n / ratio) samples, each the linear
interpolation of the two neighbouring input samples at fractional index
i * ratio, the upper index clamped to the last valid input index. -/
theorem c2_resample_spec (input : List ℚ) (r1 r2 : ℕ) (hr1 : 0 < r1) (hr2 : 0 < r2) :
    (r1 = r2 → resampleAudio input r1 r2 = input) ∧
    (r1 ≠ r2 →
      (resampleAudio input r1 r2).length
          = (jsRound ((input.length : ℚ) / ((r1 : ℚ) / (r2 : ℚ)))).toNat ∧
      ∀ i : ℕ, i < (jsRound ((input.length : ℚ) / ((r1 : ℚ) / (r2 : ℚ)))).toNat →
        (resampleAudio input r1 r2).getD i 0 =
          input.getD (⌊(i : ℚ) * ((r1 : ℚ) / (r2 : ℚ))⌋).toNat 0
              * (1 - ((i : ℚ) * ((r1 : ℚ) / (r2 : ℚ))
                  - ((⌊(i : ℚ) * ((r1 : ℚ) / (r2 : ℚ))⌋).toNat : ℚ)))
            + input.getD (min ((⌊(i : ℚ) * ((r1 : ℚ) / (r2 : ℚ))⌋).toNat + 1) (input.length - 1)) 0
              * ((i : ℚ) * ((r1 : ℚ) / (r2 : ℚ))
                  - ((⌊(i : ℚ) * ((r1 : ℚ) / (r2 : ℚ))⌋).toNat : ℚ))) := by
  constructor
  · intro h
    rw [resampleAudio, if_pos h]
  · intro h
    constructor
    · rw [resampleAudio, if_neg h]
      exact (List.length_map _ _).trans (List.length_range _)
    · intro i hi
      rw [resampleAudio, if_neg h, List.getD_eq_getElem?_getD, List.getElem?_map,
        List.getElem?_range hi]
      rfl

/-- C2 witness: equal rates give the identity, and downsampling a
4-sample buffer from 16000 Hz to 8000 Hz gives 2 samples. -/
theorem c2_resample_spec_witness :
    resampleAudio [(1 : ℚ)/2, 1/4] 8000 8000 = [(1 : ℚ)/2, 1/4] ∧
    (resampleAudio [(1 : ℚ), 0, 1, 0] 16000 8000).length = 2 := by
  refine ⟨(c2_resample_spec [(1 : ℚ)/2, 1/4] 8000 8000 (by norm_num) (by norm_num)).1 rfl, ?_⟩
  rw [((c2_resample_spec [(1 : ℚ), 0, 1, 0] 16000 8000 (by norm_num) (by norm_num)).2
    (by norm_num)).1]
  rw [show jsRound ((([(1 : ℚ), 0, 1, 0].length : ℕ) : ℚ) / (((16000 : ℕ) : ℚ) / ((8000 : ℕ) : ℚ)))
      = 2 from by rw [jsRound, Int.floor_eq_iff] <;> norm_num]
  rfl

/-- C3: PCM16 quantization clamps to the interval from -1 to 1 and rounds
sample * 32767; the result fits in a signed 16-bit integer, and for a
sample already inside the interval the decode of the encode is within one
quantization step, 1/32767, of the original. -/
theorem c3_pcm16_roundtrip (x : ℚ) (h1 : -1 ≤ x) (h2 : x ≤ 1) :
    pcm16OfFloat x = jsRound (x * 32767) ∧
    -32768 ≤ pcm16OfFloat x ∧ pcm16OfFloat x ≤ 32767 ∧
    |floatOfPcm16 (pcm16OfFloat x) - x| ≤ 1 / 32767 := by
  have hclamp : clampSample x = x := by
    unfold clampSample
    rw [min_eq_right h2, max_eq_right h1]
  have hdef : pcm16OfFloat x = jsRound (x * 32767) := by
    rw [pcm16OfFloat, hclamp]
  have hup : (jsRound (x * 32767) : ℚ) ≤ x * 32767 + 1/2 := Int.floor_le _
  have hlo : x * 32767 + 1/2 - 1 < (jsRound (x * 32767) : ℚ) := Int.sub_one_lt_floor _
  refine ⟨hdef, ?_, ?_, ?_⟩
  · rw [hdef]
    have hq : (-32768 : ℚ) ≤ (jsRound (x * 32767) : ℚ) := by nlinarith
    exact_mod_cast hq
  · rw [hdef]
    have hmono : jsRound (x * 32767) ≤ ⌊(65535 : ℚ) / 2⌋ := by
      rw [jsRound]
      exact Int.floor_le_floor (by nlinarith)
    have hval : ⌊(65535 : ℚ) / 2⌋ = 32767 := by
      rw [Int.floor_eq_iff] <;> norm_num
    rw [hval] at hmono
    exact hmono
  · rw [hdef]
    have hx : floatOfPcm16 (jsRound (x * 32767)) - x
        = ((jsRound (x * 32767) : ℚ) - x * 32767) / 32767 := by
      rw [floatOfPcm16]; ring
    rw [hx, abs_div, abs_of_pos (by norm_num : (0 : ℚ) < 32767)]
    have habs : |(jsRound (x * 32767) : ℚ) - x * 32767| ≤ 1/2 := by
      rw [abs_le]; constructor <;> linarith
    calc |(jsRound (x * 32767) : ℚ) - x * 32767| / 32767
        ≤ (1/2) / 32767 := by
          exact div_le_div_of_nonneg_right habs (by norm_num) |>.trans_eq rfl
      _ ≤ 1 / 32767 := by norm_num

/-- C3 witness: the sample 1/2 encodes to 16384 and decodes within one
quantization step. -/
theorem c3_pcm16_roundtrip_witness :
    |floatOfPcm16 (pcm16OfFloat (1/2)) - 1/2| ≤ 1 / 32767 :=
  (c3_pcm16_roundtrip (1/2) (by norm_num) (by norm_num)).2.2.2

/-! ## The session state machine

One AppState record collects the component's useState values and useRef
cells. Recorder objects and audio elements are identified by numbers
drawn from a fresh-id counter; the lists recorders and audioEls track
every object created in the session together with its current state, so
that orphaned objects (a recorder or an audio element that the code
stopped referencing without stopping) stay observable. -/

/-- MediaRecorder state: 'recording' or 'inactive'. -/
inductive RecorderPhase
  | recording
  | inactive
deriving DecidableEq, Repr

/-- One MediaRecorder object. -/
structure Recorder where
  id : ℕ
  phase : RecorderPhase
deriving DecidableEq, Repr

/-- One HTMLAudioElement object; playing is false once paused or ended. -/
structure AudioEl where
  id : ℕ
  playing : Bool
deriving DecidableEq, Repr

/-- The RecordedChunk interface of the source (audio blobs as byte
lists). -/
structure RecordedChunk where
  id : String
  audioBlob : List ℕ
  base64Audio : String
  messageId : String
  isPlaying : Bool
deriving DecidableEq, Repr

/-- readyState of the wsRef cell: no socket yet, CONNECTING, OPEN, or
CLOSING/CLOSED after close(). -/
inductive WsState
  | absent
  | connecting
  | opened
  | closed
deriving DecidableEq, Repr

/-- An outbound frame as observed on the wire. The source serializes the
audio message_id as the decimal string of the counter; the model keeps
the number itself (the encoding is injective). -/
inductive WireFrame
  | start (stream_id : String) (message_id : ℕ)
  | audio (stream_id : String) (message_id : ℕ) (audio_b64 : String)
deriving DecidableEq, Repr

/-- The message_id carried by a frame. -/
def frameId : WireFrame → ℕ
  | WireFrame.start _ m => m
  | WireFrame.audio _ m _ => m

/-- An inbound message that parsed as JSON: its type field, and the
audio_b64 payload at top level and nested under data (absent fields are
none). -/
structure ParsedMsg where
  type : String
  audio_b64 : Option String
  data_audio_b64 : Option String
deriving DecidableEq, Repr

/-- Effects of a connect attempt, in execution order. -/
inductive ConnectEffect
  | deviceAcquired
  | transportCreated
deriving DecidableEq, Repr

/-- The component state: the useState hooks and useRef cells of
WebSocketAudioClient. -/
structure AppState where
  isConnected : Bool
  isRecording : Bool
  isPlaying : Bool
  isProcessing : Bool
  connectionStatus : String
  currentStreamId : String
  currentCallId : String
  messageIdCounter : ℕ
  recordedChunks : List RecordedChunk
  ws : WsState
  streamTracks : Option Bool
  recorders : List Recorder
  recorderRef : Option ℕ
  audioEls : List AudioEl
  playingAudioRef : Option ℕ
  audioCtx : Option Bool
  recordingTimeout : Bool
  nextId : ℕ
deriving DecidableEq, Repr

/-- The initial hook values: disconnected, message id counter 1, every
ref null. -/
def initialState : AppState :=
  { isConnected := false, isRecording := false, isPlaying := false, isProcessing := false,
    connectionStatus := "Disconnected", currentStreamId := "", currentCallId := "",
    messageIdCounter := 1, recordedChunks := [], ws := WsState.absent,
    streamTracks := none, recorders := [], recorderRef := none, audioEls := [],
    playingAudioRef := none, audioCtx := none, recordingTimeout := false, nextId := 0 }

/-- mediaRecorderRef.current.start(1000): the recorder emits a buffered
chunk every 1000 ms. -/
def timesliceMs : ℕ := 1000

/-- The auto-stop timer bound: setTimeout(stopRecording, 3000). -/
def autoStopDelayMs : ℕ := 3000

/-- The auto-start delay after connect: setTimeout(startRecording, 1000). -/
def autoStartDelayMs : ℕ := 1000

/-- The connect function up to its first await: set status to
Connecting..., request the microphone (the permission oracle), and only
after the device is granted construct the WebSocket. On permission
denial the catch block sets the failure status and nothing else. -/
def connectAttempt (permissionGranted : Bool) (st : AppState) :
    AppState × List ConnectEffect :=
  let st1 := { st with connectionStatus := "Connecting..." }
  if permissionGranted then
    let st2 := { st1 with streamTracks := some true }
    let st3 := { st2 with ws := WsState.connecting }
    (st3, [ConnectEffect.deviceAcquired, ConnectEffect.transportCreated])
  else
    ({ st1 with connectionStatus := "Failed to connect - check microphone permissions" }, [])

/-- The onopen handler: mark connected, build the call and stream ids
from Date.now(), send the start frame with message_id 1 and reset the
counter to 2. -/
def onOpen (now : ℕ) (st : AppState) : AppState × WireFrame :=
  let callId := "call_" ++ toString now
  let streamId := "stream_" ++ toString now
  ({ st with ws := WsState.opened, isConnected := true,
             connectionStatus := "Connected",
             currentCallId := callId, currentStreamId := streamId,
             messageIdCounter := 2 },
   WireFrame.start streamId 1)

/-- startRecording: early return when the stream ref or an open socket is
missing; otherwise construct a fresh MediaRecorder, point the ref at it,
start it with the 1 s timeslice and arm the auto-stop timer. Any
previously referenced recorder is left as it was. -/
def startRecording (st : AppState) : AppState :=
  if st.streamTracks = none ∨ st.ws ≠ WsState.opened then st
  else
    { st with recorders := st.recorders ++ [{ id := st.nextId, phase := RecorderPhase.recording }],
              recorderRef := some st.nextId,
              nextId := st.nextId + 1,
              isRecording := true,
              recordingTimeout := true }

/-- Look up a recorder object by id. -/
def findRecorder (st : AppState) (rid : ℕ) : Option Recorder :=
  st.recorders.find? (fun r => r.id == rid)

/-- recorder.stop(): the object with the given id becomes inactive. -/
def stopRecorderList (l : List Recorder) (rid : ℕ) : List Recorder :=
  l.map (fun r => if r.id == rid then { r with phase := RecorderPhase.inactive } else r)

/-- stopRecording: clear the auto-stop timer; stop the referenced
recorder only when it is currently recording. -/
def stopRecording (st : AppState) : AppState :=
  let st1 := { st with recordingTimeout := false }
  match st1.recorderRef with
  | none => st1
  | some rid =>
    match findRecorder st1 rid with
    | none => st1
    | some r =>
      if r.phase = RecorderPhase.recording then
        { st1 with recorders := stopRecorderList st1.recorders rid, isRecording := false }
      else st1

/-- Number of recorder objects currently in the recording state. -/
def countRecording (st : AppState) : ℕ :=
  (st.recorders.filter (fun r => r.phase == RecorderPhase.recording)).length

/-- new Blob(audioChunks): concatenation of the chunk bytes. -/
def combineBlob (audioChunks : List (List ℕ)) : List ℕ := audioChunks.flatten

/-- The render-scoped consts a handler closure captures: messageIdCounter
and currentStreamId are useState values, so a closure reads the values of
the render that created it, not the live state. The refs (wsRef and
friends) and the functional set-state updates always act on the live
state. -/
structure RenderProps where
  messageIdCounter : ℕ
  currentStreamId : String
deriving DecidableEq, Repr

/-- The consts captured by the render whose handlers are running: the
state values committed at that render. -/
def renderSnapshot (st : AppState) : RenderProps :=
  { messageIdCounter := st.messageIdCounter, currentStreamId := st.currentStreamId }

/-- processRecordedAudio: bail out when the socket is not open (wsRef is
a ref, read live), when the combined blob is empty, or when
convertAudioForTeler returns null; otherwise store a RecordedChunk and
send the audio frame. The frame and the stored chunk carry the
message id and stream id CAPTURED by the closure's render; the counter
increment is the functional form prev + 1 and acts on the live state.
The conversion is the oracle convert; now is Date.now(). -/
def processRecordedAudio (convert : List ℕ → Option String) (now : ℕ)
    (captured : RenderProps) (st : AppState) (audioChunks : List (List ℕ)) :
    AppState × Option WireFrame :=
  if st.ws ≠ WsState.opened then (st, none)
  else
    let combinedBlob := combineBlob audioChunks
    if combinedBlob.length = 0 then (st, none)
    else
      match convert combinedBlob with
      | none => (st, none)
      | some base64Audio =>
        let chunkId := "chunk_" ++ toString now ++ "_" ++ toString captured.messageIdCounter
        let rc : RecordedChunk :=
          { id := chunkId, audioBlob := combinedBlob, base64Audio := base64Audio,
            messageId := toString captured.messageIdCounter, isPlaying := false }
        ({ st with recordedChunks := st.recordedChunks ++ [rc],
                   messageIdCounter := st.messageIdCounter + 1,
                   isProcessing := true },
         some (WireFrame.audio captured.currentStreamId captured.messageIdCounter base64Audio))

/-- The recorder onstop handler: the ondataavailable callback has pushed
every non-empty emitted blob into audioChunks; onstop calls the same
render's processRecordedAudio once on the accumulated list when it is
non-empty. The frames sent by this recording are returned. -/
def recorderOnStop (convert : List ℕ → Option String) (now : ℕ)
    (captured : RenderProps) (st : AppState) (emitted : List (List ℕ)) :
    AppState × List WireFrame :=
  let audioChunks := emitted.filter (fun b => decide (0 < b.length))
  if 0 < audioChunks.length then
    let r := processRecordedAudio convert now captured st audioChunks
    (r.1, r.2.toList)
  else (st, [])

/-- Iterate manually started recordings: each element of recs is the
list of blobs one recording emitted before it stopped. A manual
recording is started from a fresh render, so its closure captures the
state committed when it starts. -/
def runRecordings (convert : List ℕ → Option String) (now : ℕ) :
    AppState → List (List (List ℕ)) → AppState × List WireFrame
  | st, [] => (st, [])
  | st, rec :: rest =>
    let r1 := recorderOnStop convert now (renderSnapshot st) st rec
    let r2 := runRecordings convert now r1.1 rest
    (r2.1, r1.2 ++ r2.2)

/-- All frames one session puts on the wire: the start frame sent by
onopen followed by the audio frames of the recordings. The onopen
closure and the setTimeout that auto-starts the first recording belong
to the render that ran connect, so the first recording's closures
capture the PRE-onopen consts (message id and stream id from before the
start frame was sent); every later recording is started from a fresh
render and captures the then-committed state. -/
def sessionFrames (convert : List ℕ → Option String) (now : ℕ) (st : AppState)
    (recs : List (List (List ℕ))) : List WireFrame :=
  let captured0 := renderSnapshot st
  let r0 := onOpen now st
  match recs with
  | [] => [r0.2]
  | rec0 :: rest =>
    let r1 := recorderOnStop convert now captured0 r0.1 rec0
    let r2 := runRecordings convert now r1.1 rest
    r0.2 :: (r1.2 ++ r2.2)

/-- audio.pause() on the element with the given id. -/
def pauseAudioEl (l : List AudioEl) (aid : ℕ) : List AudioEl :=
  l.map (fun a => if a.id == aid then { a with playing := false } else a)

/-- Number of audio elements currently playing. -/
def countActivePlaybacks (st : AppState) : ℕ :=
  (st.audioEls.filter (fun a => a.playing)).length

/-- playAudioResponse: set the playing/processing flags, build a new
Audio element from the payload, point playingAudioRef at it and play it.
The previously referenced element is not paused - only the ref is
overwritten. -/
def playAudioResponse (st : AppState) (_audioBase64 : String) : AppState :=
  { st with isPlaying := true, isProcessing := false,
            audioEls := st.audioEls ++ [{ id := st.nextId, playing := true }],
            playingAudioRef := some st.nextId,
            nextId := st.nextId + 1 }

/-- playAudioChunk: first pause and drop the currently referenced
element, then mark the chunk list, then create and play a new element. -/
def playAudioChunk (st : AppState) (chunkId : String) : AppState :=
  let st1 :=
    match st.playingAudioRef with
    | some aid => { st with audioEls := pauseAudioEl st.audioEls aid, playingAudioRef := none }
    | none => st
  let marked := st1.recordedChunks.map (fun c => { c with isPlaying := c.id == chunkId })
  let st2 := { st1 with recordedChunks := marked }
  { st2 with audioEls := st2.audioEls ++ [{ id := st2.nextId, playing := true }],
             playingAudioRef := some st2.nextId,
             nextId := st2.nextId + 1 }

/-- The JavaScript a || b on the two payload fields: an absent or empty
top-level audio_b64 falls through to the nested one. -/
def jsOrString : Option String → Option String → Option String
  | some s, b => if s = "" then b else some s
  | none, b => b

/-- The onmessage handler: none models a raw frame JSON.parse rejects
(the catch block clears isProcessing); a parsed message dispatches on its
type field, an audio message with a payload plays it, everything else is
ignored. The second component is the payload handed to playback. -/
def handleMessage (st : AppState) (m : Option ParsedMsg) : AppState × Option String :=
  match m with
  | none => ({ st with isProcessing := false }, none)
  | some msg =>
    if msg.type = "audio" then
      match jsOrString msg.audio_b64 msg.data_audio_b64 with
      | some audioData => (playAudioResponse { st with isProcessing := false } audioData, some audioData)
      | none => (st, none)
    else (st, none)

/-- Whether the referenced recorder exists and has state recording (the
disconnect guard state !== inactive). -/
def recorderActive (st : AppState) : Bool :=
  match st.recorderRef with
  | none => false
  | some rid =>
    match findRecorder st rid with
    | none => false
    | some r => r.phase == RecorderPhase.recording

/-- Release 0 of disconnect: if the referenced recorder is not inactive,
stop it. -/
def releaseRecorder (st : AppState) : AppState :=
  if recorderActive st then
    { st with recorders := (match st.recorderRef with
        | some rid => stopRecorderList st.recorders rid
        | none => st.recorders) }
  else st

/-- Release 1 of disconnect: if the stream ref is set, stop every
hardware track. -/
def releaseTracks (st : AppState) : AppState :=
  if st.streamTracks.isSome then { st with streamTracks := some false } else st

/-- Release 2 of disconnect: if the socket exists and is OPEN, close
it. -/
def releaseWs (st : AppState) : AppState :=
  if st.ws = WsState.opened then { st with ws := WsState.closed } else st

/-- Release 3 of disconnect: if the audio context exists and is not
closed, close it. -/
def releaseAudioCtx (st : AppState) : AppState :=
  if st.audioCtx = some true then { st with audioCtx := some false } else st

/-- Release 4 of disconnect: if an audio element is referenced, pause it
and drop the ref. -/
def releasePlayback (st : AppState) : AppState :=
  if st.playingAudioRef.isSome then
    { st with audioEls := (match st.playingAudioRef with
        | some aid => pauseAudioEl st.audioEls aid
        | none => st.audioEls),
              playingAudioRef := none }
  else st

/-- The state setters at the end of disconnect. -/
def disconnectFlags (st : AppState) : AppState :=
  { st with isConnected := false, isRecording := false,
            connectionStatus := "Disconnected",
            currentStreamId := "", currentCallId := "",
            messageIdCounter := 1 }

/-- disconnect, translated statement by statement: clear the auto-stop
timer, then the five releases in source order, each behind its own
null/state guard, then the state setters. The fault oracle says which
release call throws when executed; a throw aborts the function at that
point (the JS semantics of an uncaught exception), returning the state
reached so far together with true. -/
def disconnect (fault : ℕ → Bool) (st : AppState) : AppState × Bool :=
  let s0 := { st with recordingTimeout := false }
  if recorderActive s0 && fault 0 then (s0, true) else
  let s1 := releaseRecorder s0
  if s1.streamTracks.isSome && fault 1 then (s1, true) else
  let s2 := releaseTracks s1
  if decide (s2.ws = WsState.opened) && fault 2 then (s2, true) else
  let s3 := releaseWs s2
  if decide (s3.audioCtx = some true) && fault 3 then (s3, true) else
  let s4 := releaseAudioCtx s3
  if s4.playingAudioRef.isSome && fault 4 then (s4, true) else
  (disconnectFlags (releasePlayback s4), false)

/-! ## Helper lemmas -/

lemma find?_stopRecorderList (l : List Recorder) (rid : ℕ) :
    (stopRecorderList l rid).find? (fun r => r.id == rid)
      = (l.find? (fun r => r.id == rid)).map
          (fun r => { r with phase := RecorderPhase.inactive }) := by
  induction l with
  | nil => rfl
  | cons a t ih =>
    rw [stopRecorderList] at ih ⊢
    rw [List.map_cons]
    by_cases h : a.id = rid
    · rw [List.find?_cons_of_pos _ (by simp [h]), List.find?_cons_of_pos _ (by simp [h])]
      simp [h]
    · rw [List.find?_cons_of_neg _ (by simp [h]), List.find?_cons_of_neg _ (by simp [h])]
      exact ih

lemma recorderActive_releaseRecorder (st : AppState) :
    recorderActive (releaseRecorder st) = false := by
  rw [releaseRecorder]
  by_cases hact : recorderActive st = true
  · rw [if_pos hact]
    cases href : st.recorderRef with
    | none =>
      unfold recorderActive at hact
      rw [href] at hact
      simp at hact
    | some rid =>
      simp only [recorderActive, findRecorder, href]
      rw [find?_stopRecorderList]
      cases st.recorders.find? (fun r => r.id == rid) with
      | none => rfl
      | some r => rfl
  · rw [if_neg hact]
    simp only [Bool.not_eq_true] at hact
    exact hact

lemma pauseAudioEl_no_playing (l : List AudioEl) (aid : ℕ)
    (h : ∀ a ∈ l, a.playing = true → a.id = aid) :
    (pauseAudioEl l aid).filter (fun a => a.playing) = [] := by
  induction l with
  | nil => rfl
  | cons a t ih =>
    have ht : ∀ x ∈ t, x.playing = true → x.id = aid :=
      fun x hx => h x (List.mem_cons_of_mem _ hx)
    by_cases hid : a.id = aid
    · simp [pauseAudioEl, hid, List.filter] at ih ⊢
      exact ih ht
    · have hp : a.playing = false := by
        by_contra hc
        exact hid (h a (List.mem_cons_self _ _) (eq_true_of_ne_false hc))
      simp [pauseAudioEl, hid, hp, List.filter] at ih ⊢
      exact ih ht

lemma processRecordedAudio_cases (convert : List ℕ → Option String) (now : ℕ)
    (captured : RenderProps) (st : AppState) (audioChunks : List (List ℕ)) :
    processRecordedAudio convert now captured st audioChunks = (st, none) ∨
    ∃ b64, (processRecordedAudio convert now captured st audioChunks).2
          = some (WireFrame.audio captured.currentStreamId captured.messageIdCounter b64) ∧
        (processRecordedAudio convert now captured st audioChunks).1.messageIdCounter
          = st.messageIdCounter + 1 ∧
        (processRecordedAudio convert now captured st audioChunks).1.ws = st.ws := by
  by_cases hws : st.ws = WsState.opened
  · by_cases hb : (combineBlob audioChunks).length = 0
    · left
      simp [processRecordedAudio, hws, hb]
    · cases hc : convert (combineBlob audioChunks) with
      | none => left; simp [processRecordedAudio, hws, hb, hc]
      | some b64 =>
        right
        refine ⟨b64, ?_, ?_, ?_⟩ <;> simp [processRecordedAudio, hws, hb, hc]
  · left
    simp [processRecordedAudio, hws]

lemma recorderActive_congr (s t : AppState) (h1 : s.recorderRef = t.recorderRef)
    (h2 : s.recorders = t.recorders) : recorderActive s = recorderActive t := by
  unfold recorderActive findRecorder
  rw [h1, h2]

lemma releaseRecorder_proj (st : AppState) :
    (releaseRecorder st).streamTracks = st.streamTracks ∧
    (releaseRecorder st).ws = st.ws ∧
    (releaseRecorder st).audioCtx = st.audioCtx ∧
    (releaseRecorder st).playingAudioRef = st.playingAudioRef := by
  unfold releaseRecorder
  split <;> simp

lemma releaseTracks_proj (st : AppState) :
    (releaseTracks st).streamTracks ≠ some true ∧
    (releaseTracks st).ws = st.ws ∧
    (releaseTracks st).audioCtx = st.audioCtx ∧
    (releaseTracks st).playingAudioRef = st.playingAudioRef ∧
    (releaseTracks st).recorders = st.recorders ∧
    (releaseTracks st).recorderRef = st.recorderRef := by
  unfold releaseTracks
  split
  · simp
  · rename_i h
    rw [Option.not_isSome_iff_eq_none] at h
    simp [h]

lemma releaseWs_proj (st : AppState) :
    (releaseWs st).ws = (if st.ws = WsState.opened then WsState.closed else st.ws) ∧
    (releaseWs st).streamTracks = st.streamTracks ∧
    (releaseWs st).audioCtx = st.audioCtx ∧
    (releaseWs st).playingAudioRef = st.playingAudioRef ∧
    (releaseWs st).recorders = st.recorders ∧
    (releaseWs st).recorderRef = st.recorderRef := by
  unfold releaseWs
  split
  · rename_i h
    simp [h]
  · rename_i h
    simp [h]

lemma releaseAudioCtx_proj (st : AppState) :
    (releaseAudioCtx st).ws = st.ws ∧
    (releaseAudioCtx st).streamTracks = st.streamTracks ∧
    (releaseAudioCtx st).playingAudioRef = st.playingAudioRef ∧
    (releaseAudioCtx st).recorders = st.recorders ∧
    (releaseAudioCtx st).recorderRef = st.recorderRef := by
  unfold releaseAudioCtx
  split <;> simp

lemma releasePlayback_proj (st : AppState) :
    (releasePlayback st).playingAudioRef = none ∧
    (releasePlayback st).ws = st.ws ∧
    (releasePlayback st).streamTracks = st.streamTracks ∧
    (releasePlayback st).recorders = st.recorders ∧
    (releasePlayback st).recorderRef = st.recorderRef := by
  unfold releasePlayback
  split
  · simp
  · rename_i h
    rw [Option.not_isSome_iff_eq_none] at h
    simp [h]

lemma disconnect_noFault_eq (st : AppState) :
    disconnect (fun _ => false) st
      = (disconnectFlags (releasePlayback (releaseAudioCtx (releaseWs (releaseTracks
          (releaseRecorder { st with recordingTimeout := false }))))), false) := by
  simp [disconnect]

/-! ## Shared concrete states for witnesses and counterexamples -/

/-- The state right after a granted connect and the onopen handler when
Date.now() returned 1000. -/
def stConnected : AppState := (onOpen 1000 (connectAttempt true initialState).1).1

/-- A conversion oracle that always succeeds with a fixed base64
payload. -/
def convOk : List ℕ → Option String := fun _ => some ("QUJD")

/-- A session with one audio element playing and referenced. -/
def stC5 : AppState :=
  { initialState with audioEls := [{ id := 0, playing := true }],
                      playingAudioRef := some 0, isPlaying := true, nextId := 1 }

/-- A connected session with one recorder actively recording. -/
def stC6 : AppState :=
  { initialState with streamTracks := some true, ws := WsState.opened,
                      recorders := [{ id := 0, phase := RecorderPhase.recording }],
                      recorderRef := some 0, isRecording := true, nextId := 1 }

/-- A fully live session: open socket, live tracks, active recorder,
playing audio element. -/
def stC7 : AppState :=
  { initialState with isConnected := true, isRecording := true, isPlaying := true,
                      ws := WsState.opened, streamTracks := some true,
                      recorders := [{ id := 0, phase := RecorderPhase.recording }],
                      recorderRef := some 0,
                      audioEls := [{ id := 1, playing := true }], playingAudioRef := some 1,
                      recordingTimeout := true, nextId := 2 }

/-! ## Claims -/

/-- C1 counterexample: the auto-started first recording of a session
(whose closures captured the pre-onopen consts: message id 1, stream id
empty) emits three one-second chunks but produces a single audio frame
for the whole recording, not one frame per chunk - and that frame
carries message_id 1 and an empty stream_id, not 2. -/
theorem c1_counterexample :
    ([[1], [2], [3]] : List (List ℕ)).length = 3 ∧
    (recorderOnStop convOk 4000 (renderSnapshot initialState) stConnected [[1], [2], [3]]).2
      = [WireFrame.audio ("") 1 ("QUJD")] ∧
    ¬ (recorderOnStop convOk 4000 (renderSnapshot initialState) stConnected
        [[1], [2], [3]]).2.length
      = ([[1], [2], [3]] : List (List ℕ)).length ∧
    (recorderOnStop convOk 4000 (renderSnapshot initialState) stConnected
        [[1], [2], [3]]).2.map frameId ≠ [2] := by
  decide

/-- C1 amended: capture buffers are emitted on the fixed 1-second time
slice and buffered; when the recording stops (the auto-stop timer fires
after 3 s) the buffered chunks are combined and sent as at most one
audio frame per recording. The frame carries the message id captured by
the recording's render closure, not the live counter; the first
recording of a session is auto-started from the connect render, whose
captured consts on a fresh session are the pre-onopen values message id
1 and stream id empty. -/
theorem c1_chunk_frames (convert : List ℕ → Option String) (now : ℕ)
    (captured : RenderProps) (st : AppState) (emitted : List (List ℕ)) :
    timesliceMs = 1000 ∧ autoStopDelayMs = 3000 ∧
    (recorderOnStop convert now captured st emitted).2.length ≤ 1 ∧
    (∀ f ∈ (recorderOnStop convert now captured st emitted).2,
        frameId f = captured.messageIdCounter) ∧
    renderSnapshot initialState = { messageIdCounter := 1, currentStreamId := "" } := by
  refine ⟨rfl, rfl, ?_, ?_, rfl⟩
  · simp only [recorderOnStop]
    split
    · rcases processRecordedAudio_cases convert now captured st
          (emitted.filter (fun b => decide (0 < b.length))) with h | ⟨b64, h1, _, _⟩
      · simp [h]
      · cases hf : (processRecordedAudio convert now captured st
            (emitted.filter (fun b => decide (0 < b.length)))).2 with
        | none => simp [hf]
        | some f => simp [hf]
    · simp
  · simp only [recorderOnStop]
    split
    · rcases processRecordedAudio_cases convert now captured st
          (emitted.filter (fun b => decide (0 < b.length))) with h | ⟨b64, h1, _, _⟩
      · simp [h]
      · intro f hf
        rw [h1] at hf
        simp at hf
        rw [hf, frameId]
    · simp

/-- C1 witness for the amended claim, at the concrete auto-started first
recording of a session. -/
theorem c1_chunk_frames_witness :
    (recorderOnStop convOk 4000 (renderSnapshot initialState) stConnected
        [[1], [2], [3]]).2.length ≤ 1 ∧
    renderSnapshot initialState = { messageIdCounter := 1, currentStreamId := "" } :=
  ⟨(c1_chunk_frames convOk 4000 (renderSnapshot initialState) stConnected
      [[1], [2], [3]]).2.2.1,
   (c1_chunk_frames convOk 4000 (renderSnapshot initialState) stConnected
      [[1], [2], [3]]).2.2.2.2⟩

/-- C4: the code contradicts its own intent (the comment next to
setMessageIdCounter(2): start from 2 since the start message is 1). The
auto-started first recording runs the connect render's closures, which
captured message id 1 and stream id empty from before onopen committed,
while the functional increment bumps the live counter 2 to 3. A session
with two successful recordings therefore puts ids 1, 1, 3 on the wire -
id 1 is reused, 2 is never sent, and the first audio frame carries an
empty stream_id - instead of the claimed strictly increasing 1, 2, 3. -/
theorem c4_stale_closure_ids :
    sessionFrames convOk 1000 initialState [[[1]], [[2]]]
      = [WireFrame.start ("stream_1000") 1,
         WireFrame.audio ("") 1 ("QUJD"),
         WireFrame.audio ("stream_1000") 3 ("QUJD")] ∧
    (sessionFrames convOk 1000 initialState [[[1]], [[2]]]).map frameId = [1, 1, 3] ∧
    (sessionFrames convOk 1000 initialState [[[1]], [[2]]]).map frameId
      ≠ List.range' 1 3 := by
  decide

/-- C5 counterexample: playAudioResponse starts a new playback while a
previous one is active without stopping it - afterwards two audio
elements are playing at once, and the reference to the first is lost. -/
theorem c5_counterexample :
    countActivePlaybacks stC5 = 1 ∧
    countActivePlaybacks (playAudioResponse stC5 ("UEs=")) = 2 ∧
    (playAudioResponse stC5 ("UEs=")).playingAudioRef = some 1 := by
  decide

/-- C5 amended: playAudioChunk stops and releases the referenced
playback before starting the new one (so when every playing element is
the referenced one, exactly one element plays afterwards); but
playAudioResponse only overwrites the reference - it appends a new
playing element and pauses nothing. -/
theorem c5_playback_exclusivity (st : AppState) (chunkId b64 : String)
    (h : ∀ a ∈ st.audioEls, a.playing = true → st.playingAudioRef = some a.id) :
    countActivePlaybacks (playAudioChunk st chunkId) = 1 ∧
    (playAudioResponse st b64).audioEls
      = st.audioEls ++ [{ id := st.nextId, playing := true }] ∧
    (playAudioResponse st b64).playingAudioRef = some st.nextId := by
  refine ⟨?_, rfl, rfl⟩
  unfold playAudioChunk
  cases href : st.playingAudioRef with
  | none =>
    have hnone : st.audioEls.filter (fun a => a.playing) = [] := by
      rw [List.filter_eq_nil_iff]
      intro a ha hp
      have := h a ha (by simpa using hp)
      rw [href] at this
      exact Option.noConfusion this
    simp only [countActivePlaybacks, List.filter_append, hnone]
    simp
  | some aid =>
    have hall : ∀ a ∈ st.audioEls, a.playing = true → a.id = aid := by
      intro a ha hp
      have := h a ha hp
      rw [href] at this
      exact (Option.some_injective _ this).symm
    simp only [countActivePlaybacks, List.filter_append,
      pauseAudioEl_no_playing st.audioEls aid hall]
    simp

/-- C5 witness for the amended claim. -/
theorem c5_playback_exclusivity_witness :
    countActivePlaybacks (playAudioChunk stC5 ("chunk_1")) = 1 :=
  (c5_playback_exclusivity stC5 ("chunk_1") ("QUJD") (by decide)).1

/-- C6 counterexample: startRecording during an active capture is not a
no-op: it builds and starts a second recorder and repoints the ref at it,
so two recorders are recording at once. -/
theorem c6_counterexample :
    startRecording stC6 ≠ stC6 ∧
    (startRecording stC6).recorderRef = some 1 ∧ stC6.recorderRef = some 0 ∧
    countRecording (startRecording stC6) = 2 := by
  decide

/-- C6 amended: startRecording is a guarded no-op only when the device
stream or the open socket is missing; otherwise - also while a capture is
already active - it appends a freshly started recorder and repoints the
ref (the previous recorder is left recording). stopRecording with no
recording recorder only clears the auto-stop timer. -/
theorem c6_capture_start_stop (st : AppState) (rid : ℕ) (r : Recorder) :
    (st.streamTracks = none ∨ st.ws ≠ WsState.opened → startRecording st = st) ∧
    (st.streamTracks ≠ none → st.ws = WsState.opened →
      (startRecording st).recorderRef = some st.nextId ∧
      (startRecording st).recorders
        = st.recorders ++ [{ id := st.nextId, phase := RecorderPhase.recording }]) ∧
    (st.recorderRef = none → stopRecording st = { st with recordingTimeout := false }) ∧
    (st.recorderRef = some rid → findRecorder st rid = some r →
      r.phase ≠ RecorderPhase.recording →
      stopRecording st = { st with recordingTimeout := false }) := by
  refine ⟨?_, ?_, ?_, ?_⟩
  · intro h
    rw [startRecording, if_pos h]
  · intro h1 h2
    rw [startRecording, if_neg (by simp [h1, h2])]
    exact ⟨rfl, rfl⟩
  · intro h
    simp [stopRecording, h]
  · intro h1 h2 h3
    unfold findRecorder at h2
    simp [stopRecording, findRecorder, h1, h2, h3]

/-- C6 witness for the amended claim. -/
theorem c6_capture_start_stop_witness :
    startRecording initialState = initialState ∧
    (startRecording stC6).recorderRef = some stC6.nextId :=
  ⟨(c6_capture_start_stop initialState 0 { id := 0, phase := RecorderPhase.inactive }).1
      (Or.inl rfl),
   ((c6_capture_start_stop stC6 0 { id := 0, phase := RecorderPhase.inactive }).2.1
      (by decide) rfl).1⟩

/-- C7 counterexample: when the recorder stop throws, disconnect aborts
and the remaining releases are skipped - the tracks stay live, the
socket stays open and the playback stays referenced. The releases are
null/state guarded but not exception-isolated. -/
theorem c7_counterexample :
    (disconnect (fun n => n == 0) stC7).2 = true ∧
    (disconnect (fun n => n == 0) stC7).1.streamTracks = some true ∧
    (disconnect (fun n => n == 0) stC7).1.ws = WsState.opened ∧
    (disconnect (fun n => n == 0) stC7).1.playingAudioRef = some 1 := by
  decide

/-- C7 amended: when no release call throws, disconnect never throws (in
particular twice in a row, and on a never-connected state): it stops the
recorder, stops the tracks, drops the playback ref and marks the session
disconnected; the socket is closed exactly when its readyState is OPEN -
the guard skips a still-CONNECTING socket, which is left in the
connecting state (to open later), so disconnect before the handshake
completes does not release the transport handle. -/
theorem c7_disconnect_guarded (st : AppState) :
    (disconnect (fun _ => false) st).2 = false ∧
    (disconnect (fun _ => false) st).1.ws
      = (if st.ws = WsState.opened then WsState.closed else st.ws) ∧
    (disconnect (fun _ => false) st).1.streamTracks ≠ some true ∧
    (disconnect (fun _ => false) st).1.playingAudioRef = none ∧
    recorderActive (disconnect (fun _ => false) st).1 = false ∧
    (disconnect (fun _ => false) st).1.isConnected = false ∧
    (disconnect (fun _ => false) st).1.connectionStatus = "Disconnected" ∧
    (disconnect (fun _ => false) (disconnect (fun _ => false) st).1).2 = false := by
  rw [disconnect_noFault_eq]
  set a0 : AppState := { st with recordingTimeout := false } with ha0
  set a1 := releaseRecorder a0 with ha1
  set a2 := releaseTracks a1 with ha2
  set a3 := releaseWs a2 with ha3
  set a4 := releaseAudioCtx a3 with ha4
  set a5 := releasePlayback a4 with ha5
  have p1 := releaseRecorder_proj a0
  have p2 := releaseTracks_proj a1
  have p3 := releaseWs_proj a2
  have p4 := releaseAudioCtx_proj a3
  have p5 := releasePlayback_proj a4
  have hws : (disconnectFlags a5).ws
      = (if st.ws = WsState.opened then WsState.closed else st.ws) := by
    show a5.ws = _
    rw [p5.2.1, p4.1, p3.1, p2.2.1, p1.2.1, ha0]
  have htracks : (disconnectFlags a5).streamTracks ≠ some true := by
    show a5.streamTracks ≠ some true
    rw [p5.2.2.1, p4.2.1, p3.2.1]
    exact p2.1
  have hplay : (disconnectFlags a5).playingAudioRef = none := by
    show a5.playingAudioRef = none
    exact p5.1
  have hrec : recorderActive (disconnectFlags a5) = false := by
    have e5 : recorderActive (disconnectFlags a5) = recorderActive a4 :=
      recorderActive_congr _ _ p5.2.2.2.2 p5.2.2.2.1
    have e4 : recorderActive a4 = recorderActive a3 :=
      recorderActive_congr _ _ p4.2.2.2.2 p4.2.2.2.1
    have e3 : recorderActive a3 = recorderActive a2 :=
      recorderActive_congr _ _ p3.2.2.2.2.2 p3.2.2.2.2.1
    have e2 : recorderActive a2 = recorderActive a1 :=
      recorderActive_congr _ _ p2.2.2.2.2.2 p2.2.2.2.2.1
    rw [e5, e4, e3, e2, ha1]
    exact recorderActive_releaseRecorder a0
  refine ⟨rfl, hws, htracks, hplay, hrec, rfl, rfl, ?_⟩
  rw [disconnect_noFault_eq]

/-- C8: connect acquires the capture device before it creates the
transport; on permission denial the session stays disconnected, no
transport is ever created and the failure is reported in the connection
status. -/
theorem c8_permission_denied (st : AppState)
    (hconn : st.isConnected = false) (hws : st.ws = WsState.absent) :
    (connectAttempt false st).1.isConnected = false ∧
    (connectAttempt false st).1.ws = WsState.absent ∧
    (connectAttempt false st).2 = [] ∧
    ConnectEffect.transportCreated ∉ (connectAttempt false st).2 ∧
    (connectAttempt false st).1.connectionStatus
      = "Failed to connect - check microphone permissions" ∧
    (connectAttempt true st).2
      = [ConnectEffect.deviceAcquired, ConnectEffect.transportCreated] := by
  refine ⟨?_, ?_, rfl, ?_, rfl, rfl⟩
  · simpa [connectAttempt] using hconn
  · simpa [connectAttempt] using hws
  · simp [connectAttempt]

/-- C8 witness at the initial state. -/
theorem c8_permission_denied_witness :
    (connectAttempt false initialState).1.isConnected = false ∧
    (connectAttempt false initialState).1.ws = WsState.absent :=
  ⟨(c8_permission_denied initialState rfl rfl).1,
   (c8_permission_denied initialState rfl rfl).2.1⟩

/-- C9: inbound handling dispatches purely on the type field: an audio
message with a payload (top-level or nested under data) clears the
processing state and starts playback; a message of any other type is
ignored with no state change; a non-JSON frame is dropped and the
session continues. -/
theorem c9_inbound_dispatch (st : AppState) (msg : ParsedMsg) (a : String) :
    (msg.type ≠ "audio" → handleMessage st (some msg) = (st, none)) ∧
    (handleMessage st none = ({ st with isProcessing := false }, none) ∧
      (handleMessage st none).1.isConnected = st.isConnected ∧
      (handleMessage st none).1.ws = st.ws ∧
      (handleMessage st none).2 = none) ∧
    (msg.type = "audio" → a ≠ "" → msg.audio_b64 = some a →
      handleMessage st (some msg)
        = (playAudioResponse { st with isProcessing := false } a, some a) ∧
      (handleMessage st (some msg)).1.isProcessing = false ∧
      (handleMessage st (some msg)).1.isPlaying = true) ∧
    (msg.type = "audio" → msg.audio_b64 = none → msg.data_audio_b64 = some a →
      (handleMessage st (some msg)).1.isProcessing = false ∧
      (handleMessage st (some msg)).1.isPlaying = true ∧
      (handleMessage st (some msg)).2 = some a) := by
  refine ⟨?_, ⟨rfl, rfl, rfl, rfl⟩, ?_, ?_⟩
  · intro h
    simp [handleMessage, h]
  · intro h1 h2 h3
    refine ⟨?_, ?_, ?_⟩ <;> simp [handleMessage, jsOrString, playAudioResponse, h1, h2, h3]
  · intro h1 h2 h3
    refine ⟨?_, ?_, ?_⟩ <;> simp [handleMessage, jsOrString, playAudioResponse, h1, h2, h3]

/-- C9 witness: a processing session, one audio message with a top-level
payload and one unknown-type message. -/
theorem c9_inbound_dispatch_witness :
    handleMessage { initialState with isProcessing := true }
        (some { type := "unknown", audio_b64 := none, data_audio_b64 := none })
      = ({ initialState with isProcessing := true }, none) ∧
    (handleMessage { initialState with isProcessing := true }
        (some { type := "audio", audio_b64 := some ("QUJD"), data_audio_b64 := none })).1.isProcessing
      = false :=
  ⟨(c9_inbound_dispatch { initialState with isProcessing := true }
      { type := "unknown", audio_b64 := none, data_audio_b64 := none } ("x")).1 (by decide),
   ((c9_inbound_dispatch { initialState with isProcessing := true }
      { type := "audio", audio_b64 := some ("QUJD"), data_audio_b64 := none } ("QUJD")).2.2.1
      rfl (by decide) rfl).2.1⟩

/-- C10: processRecordedAudio is atomic with respect to the session
counters: when the socket is not open, the combined blob is empty, or
conversion returns null, it sends nothing and changes nothing; the
message-id counter is incremented exactly when a frame is sent. This
holds for every captured render snapshot. -/
theorem c10_process_atomic (convert : List ℕ → Option String) (now : ℕ)
    (captured : RenderProps) (st : AppState) (audioChunks : List (List ℕ)) :
    (st.ws ≠ WsState.opened ∨ combineBlob audioChunks = [] ∨
        convert (combineBlob audioChunks) = none →
      processRecordedAudio convert now captured st audioChunks = (st, none)) ∧
    ((processRecordedAudio convert now captured st audioChunks).2 = none →
      (processRecordedAudio convert now captured st audioChunks).1 = st) ∧
    (processRecordedAudio convert now captured st audioChunks).1.messageIdCounter
      = st.messageIdCounter
        + (if (processRecordedAudio convert now captured st audioChunks).2.isSome
            then 1 else 0) ∧
    ((processRecordedAudio convert now captured st audioChunks).2 = none →
      (processRecordedAudio convert now captured st audioChunks).1.recordedChunks
        = st.recordedChunks) := by
  by_cases hws : st.ws = WsState.opened
  · by_cases hb : (combineBlob audioChunks).length = 0
    · have hb' : combineBlob audioChunks = [] := List.length_eq_zero.mp hb
      refine ⟨fun _ => ?_, ?_, ?_, ?_⟩ <;> simp [processRecordedAudio, hws, hb]
    · have hb' : ¬ combineBlob audioChunks = [] := fun hh => hb (by rw [hh]; rfl)
      cases hc : convert (combineBlob audioChunks) with
      | none =>
        refine ⟨fun _ => ?_, ?_, ?_, ?_⟩ <;> simp [processRecordedAudio, hws, hb, hc]
      | some b64 =>
        refine ⟨?_, ?_, ?_, ?_⟩
        · intro h
          rcases h with h | h | h
          · exact absurd hws h
          · exact absurd h hb'
          · exact Option.noConfusion h
        · simp [processRecordedAudio, hws, hb, hc]
        · simp [processRecordedAudio, hws, hb, hc]
        · simp [processRecordedAudio, hws, hb, hc]
  · refine ⟨fun _ => ?_, ?_, ?_, ?_⟩ <;> simp [processRecordedAudio, hws]

/-- C10 witness: a failing conversion sends nothing and leaves the state
unchanged. -/
theorem c10_process_atomic_witness :
    processRecordedAudio (fun _ => none) 0 (renderSnapshot stConnected) stConnected [[1]]
      = (stConnected, none) :=
  (c10_process_atomic (fun _ => none) 0 (renderSnapshot stConnected) stConnected [[1]]).1
    (Or.inr (Or.inr rfl))

end WSAudio
